import Mathlib

/-!
Shallow embedding of the client-side rendering layer of the trading
dashboard (source file: nofv2/static/history.js), together with proofs of
the behavioural properties of its load flows, renderers and selection
state machine.

Modelling conventions:
* JavaScript numbers are modelled as rationals (`JSNum := Rat`).  No claim
  here depends on binary floating point behaviour.
* A possibly absent field of a JSON payload is an `Option`.
* The JavaScript truthiness coercions used by the source (`x || d`, ternary
  guards on fields) are made explicit through the helpers `jsOrNum`,
  `jsOrStr` and friends: the number 0 and the empty string are falsy.
* Each network interaction is a suspension point; a flow receives the
  outcome the network would deliver as an `Except String payload` value
  (`.error e` is a rejected promise).  `Promise.all` is `promiseAll4`.
* The document elements written by the script are the fields of `UIState`,
  together with the three process-wide script variables
  (`currentDecisions`, `selectedDecisionIndex`, `currentTradesPage`).
* Environment-defined string renderings (`Date.toLocaleString`, the exact
  decimal expansion chosen by JavaScript for a non-integer number) are
  modelled by definite total functions whose doc comments note the
  approximation; no property proved below depends on their output shape.
-/

namespace History

/-- JavaScript numeric values, modelled as rationals. -/
abbrev JSNum := Rat

/-- The JavaScript expression `v || dflt` on a possibly absent number:
`undefined`, `null` and `0` are falsy. -/
def jsOrNum (v : Option JSNum) (dflt : JSNum) : JSNum :=
  match v with
  | some x => if x = 0 then dflt else x
  | none => dflt

/-- The JavaScript expression `v || dflt` on a possibly absent string:
`undefined`, `null` and the empty string are falsy. -/
def jsOrStr (v : Option String) (dflt : String) : String :=
  match v with
  | some s => if s = "" then dflt else s
  | none => dflt

/-- The JavaScript expression `s || dflt` on a plain string value. -/
def jsOrStrS (s dflt : String) : String :=
  if s = "" then dflt else s

/-- Left pad a digit string with zeros up to the requested width. -/
def padZeros (width : Nat) (s : String) : String :=
  (List.replicate (width - s.length) '0').asString ++ s

/-- Models `Number.prototype.toFixed digits`: fixed decimal rendering of a
number, rounding half away from zero.  (JavaScript resolves exact ties by
the binary representation of the argument; no property proved in this file
depends on tie behaviour.) -/
def toFixed (q : JSNum) (digits : Nat) : String :=
  let p : Nat := 10 ^ digits
  let scaled : Rat := q * (p : Rat)
  let n : Int := if 0 ≤ scaled then (scaled + 1/2).floor else -((-scaled + 1/2).floor)
  let sign := if n < 0 then "-" else ""
  let m : Nat := n.natAbs
  if digits = 0 then sign ++ toString (m / p)
  else sign ++ toString (m / p) ++ "." ++ padZeros digits (toString (m % p))

/-- Models the JavaScript number-to-string coercion used in string
concatenation.  Exact for integers; for non-integers JavaScript prints the
shortest round-tripping decimal, which is approximated here by a six digit
fixed rendering (no property proved in this file inspects that case). -/
def jsNumToString (q : JSNum) : String :=
  if q.den = 1 then toString q.num else toFixed q 6

/-- String coercion of a possibly absent number: JavaScript prints the
text `undefined` for a missing field used in concatenation. -/
def jsNumCoerce (v : Option JSNum) : String :=
  match v with
  | some q => jsNumToString q
  | none => "undefined"

/-- String coercion of a possibly absent string field. -/
def jsStrCoerce (v : Option String) : String :=
  match v with
  | some s => s
  | none => "undefined"

/-- Decidable substring test, used both for the embedding of
`String.prototype.indexOf sub >= 0` and to state containment facts about
rendered markup. -/
def strContains (s sub : String) : Bool :=
  decide (sub.data <:+: s.data)

/-- One global replacement pass over the characters of a string, the
embedding of `String.prototype.replace` with a one character pattern (the
only patterns the source uses). -/
def replaceCharList (c : Char) (rep : List Char) : List Char → List Char
  | [] => []
  | x :: xs => (if x = c then rep else [x]) ++ replaceCharList c rep xs

/-- `s.replace(pat, rep)` for a one character pattern `pat`. -/
def replaceCharAll (c : Char) (rep : String) (s : String) : String :=
  ⟨replaceCharList c rep.data s.data⟩

/-- The embedding of `String.prototype.toLowerCase`. -/
def jsToLower (s : String) : String :=
  ⟨s.data.map Char.toLower⟩

/-- `escapeHtml` from the source: empty or absent input gives the empty
string, otherwise `&`, `<` and `>` are replaced globally, in that order,
by their character references. -/
def escapeHtml (str : Option String) : String :=
  match str with
  | none => ""
  | some s =>
      if s = "" then ""
      else replaceCharAll '>' "&gt;"
        (replaceCharAll '<' "&lt;" (replaceCharAll '&' "&amp;" s))

/-- Models `new Date(ms).toLocaleString` with the zh-CN two digit options
used by the source.  The real output is environment defined; it is
modelled by a definite rendering of the millisecond timestamp, which no
property proved in this file inspects. -/
def jsLocaleDateTime (ms : JSNum) : String :=
  "datetime(" ++ jsNumToString ms ++ ")"

/-! ### Dynamic JSON values

The decision payloads `request` and `response_raw` are duck typed in the
source (string or structured).  They are modelled by a small JSON value
type. -/

/-- A JSON value, as delivered by the backend for the duck typed decision
payload fields. -/
inductive JSVal where
  | str (s : String)
  | num (q : JSNum)
  | boolean (b : Bool)
  | null
  | arr (items : List JSVal)
  | obj (fields : List (String × JSVal))

/-- JavaScript truthiness of a JSON value: empty string, zero, `false` and
`null` are falsy; arrays and objects are always truthy. -/
def jsTruthyVal : JSVal → Bool
  | .str s => s ≠ ""
  | .num q => q ≠ 0
  | .boolean b => b
  | .null => false
  | .arr _ => true
  | .obj _ => true

/-- Property access `v.k`: only objects carry properties; on every other
value the access yields `undefined`. -/
def jsGetField (v : JSVal) (k : String) : Option JSVal :=
  match v with
  | .obj fields => fields.lookup k
  | _ => none

mutual

/-- Models the JavaScript string coercion of a JSON value (as produced by
string concatenation). -/
def jsValCoerceString : JSVal → String
  | .str s => s
  | .num q => jsNumToString q
  | .boolean b => if b then "true" else "false"
  | .null => "null"
  | .arr items => String.intercalate "," (jsValCoerceItems items)
  | .obj _ => "[object Object]"

/-- String coercions of the elements of a JSON array. -/
def jsValCoerceItems : List JSVal → List String
  | [] => []
  | v :: vs => jsValCoerceString v :: jsValCoerceItems vs

end

/-- JSON string escaping for `JSON.stringify` (the common escapes; rare
control characters are left as is, which no property here inspects). -/
def jsonEscapeChar (c : Char) : String :=
  if c = '"' then "\\\"" else if c = '\\' then "\\\\"
  else if c = '\n' then "\\n" else if c = '\t' then "\\t"
  else if c = '\r' then "\\r" else String.singleton c

/-- A JSON quoted string literal. -/
def jsonQuote (s : String) : String :=
  "\"" ++ String.join (s.data.map jsonEscapeChar) ++ "\""

/-- A run of spaces, for `JSON.stringify` indentation. -/
def spacesStr (n : Nat) : String :=
  (List.replicate n ' ').asString

mutual

/-- Models `JSON.stringify(v, null, 2)` at a given current indentation. -/
def jsonStringifyAux (indent : Nat) : JSVal → String
  | .str s => jsonQuote s
  | .num q => jsNumToString q
  | .boolean b => if b then "true" else "false"
  | .null => "null"
  | .arr items =>
      match items with
      | [] => "[]"
      | _ =>
        "[\n" ++
          String.intercalate ",\n" (jsonStringifyItems (indent + 2) items) ++
          "\n" ++ spacesStr indent ++ "]"
  | .obj fields =>
      match fields with
      | [] => "\x7b\x7d"
      | _ =>
        "\x7b\n" ++
          String.intercalate ",\n" (jsonStringifyFields (indent + 2) fields) ++
          "\n" ++ spacesStr indent ++ "\x7d"

/-- The indented renderings of the elements of a JSON array. -/
def jsonStringifyItems (indent : Nat) : List JSVal → List String
  | [] => []
  | v :: vs =>
      (spacesStr indent ++ jsonStringifyAux indent v) :: jsonStringifyItems indent vs

/-- The indented renderings of the members of a JSON object. -/
def jsonStringifyFields (indent : Nat) : List (String × JSVal) → List String
  | [] => []
  | (k, v) :: fs =>
      (spacesStr indent ++ jsonQuote k ++ ": " ++ jsonStringifyAux indent v) ::
        jsonStringifyFields indent fs

end

/-- Models `JSON.stringify(v, null, 2)`. -/
def jsonStringify2 (v : JSVal) : String :=
  jsonStringifyAux 0 v

/-! ### Data model -/

/-- Payload of `/dashboard_stats`. -/
structure DashboardStats where
  total_profit : Option JSNum := none
  profit_pct : Option JSNum := none
  unrealized_pnl : Option JSNum := none
  win_rate : Option JSNum := none
  win_count : Option JSNum := none
  lose_count : Option JSNum := none
  total_trades : Option JSNum := none
  position_count : Option JSNum := none
  current_equity : Option JSNum := none
  total_fee : Option JSNum := none
  max_drawdown : Option JSNum := none
  calmar : Option JSNum := none
  deriving DecidableEq

/-- One point of the profit curve: the source accepts both a two element
array and an object with `ts` and `equity` fields. -/
inductive CurvePoint where
  | tuple (ts : JSNum) (equity : JSNum)
  | obj (ts : JSNum) (equity : JSNum)
  deriving DecidableEq

/-- The timestamp of a curve point (`Array.isArray(item) ? item[0] : item.ts`). -/
def curveTs : CurvePoint → JSNum
  | .tuple t _ => t
  | .obj t _ => t

/-- The equity of a curve point (`Number(item[1])` or `Number(item.equity)`). -/
def curveEquity : CurvePoint → JSNum
  | .tuple _ e => e
  | .obj _ e => e

/-- Payload of `/profit_curve`. -/
structure ProfitCurve where
  data : Option (List CurvePoint) := none
  initial_equity : Option JSNum := none
  deriving DecidableEq

/-- One open position. -/
structure Position where
  symbol : Option String := none
  side : Option String := none
  size : Option JSNum := none
  entry : Option JSNum := none
  leverage : Option JSNum := none
  mark_price : Option JSNum := none
  pnl : Option JSNum := none
  tp_price : Option JSNum := none
  sl_price : Option JSNum := none
  deriving DecidableEq

/-- Payload of `/positions`. -/
structure PositionsResp where
  positions : Option (List Position) := none
  deriving DecidableEq

/-- One completed trade. -/
structure Trade where
  symbol : Option String := none
  side : Option String := none
  entry_type : Option String := none
  exit_type : Option String := none
  entry_price : Option JSNum := none
  exit_price : Option JSNum := none
  quantity : Option JSNum := none
  net_pnl : Option JSNum := none
  pnl_pct : Option JSNum := none
  peak_pnl : Option JSNum := none
  max_drawdown : Option JSNum := none
  total_fee : Option JSNum := none
  hold_minutes : Option Int := none
  entry_time : Option JSNum := none
  exit_time : Option JSNum := none
  deriving DecidableEq

/-- Payload of `/completed_trades`. -/
structure TradePageResp where
  trades : Option (List Trade) := none
  total : Option JSNum := none
  page : Option JSNum := none
  pages : Option JSNum := none
  deriving DecidableEq

/-- One per-symbol signal of a decision round. -/
structure Signal where
  symbol : Option String := none
  action : Option String := none
  entry : Option JSNum := none
  position_size : Option JSNum := none
  quantity : Option JSNum := none
  order_value : Option JSNum := none
  amount : Option JSNum := none
  stop_loss : Option JSNum := none
  take_profit : Option JSNum := none
  ai_decision : Option String := none
  ai_reason : Option String := none
  reason : Option String := none
  invalidations : Option (List String) := none
  deriving DecidableEq

/-- One automated decision round. -/
structure Decision where
  round : Option JSNum := none
  timestamp : Option JSNum := none
  http_status : Option JSNum := none
  symbols_count : Option JSNum := none
  signal_count : Option JSNum := none
  wait_count : Option JSNum := none
  signals : Option (List Signal) := none
  request : Option JSVal := none
  response_raw : Option JSVal := none

/-- Payload of `/decisions`. -/
structure DecisionsResponse where
  decisions : Option (List Decision) := none
  total : Option JSNum := none

/-- What the profit chart element holds: either plain markup (the empty
state message) or an initialised chart carrying the three series built by
`renderProfitChart`. -/
inductive ChartContent where
  | html (s : String)
  | chart (xData : List String) (yData : List JSNum) (baseLine : List JSNum)

/-- The document elements written by the script, together with the three
process-wide script variables. -/
structure UIState where
  statsRow1 : String := ""
  statsRow2 : String := ""
  profitChart : ChartContent := .html ""
  chartLegend : String := ""
  positionsHtml : String := ""
  tradesHtml : String := ""
  posCount : String := ""
  tradeCount : String := ""
  subtitle : String := ""
  aiSummary : String := ""
  decisionListHtml : String := ""
  decisionDetailHtml : String := ""
  currentDecisions : List Decision := []
  selectedDecisionIndex : Int := 0
  currentTradesPage : JSNum := 1

/-! ### Stats renderer -/

/-- `renderDashboardStats(stats, profit)`: the markup written into the two
stat row containers, as a pair (stats-row1, stats-row2). -/
def renderDashboardStats (stats : DashboardStats) (profit : ProfitCurve) :
    String × String :=
  let initial := jsOrNum profit.initial_equity 0
  let totalProfit := jsOrNum stats.total_profit 0
  let profitPct := jsOrNum stats.profit_pct 0
  let unrealized := jsOrNum stats.unrealized_pnl 0
  let winRate := jsOrNum stats.win_rate 0
  let winCount := jsOrNum stats.win_count 0
  let loseCount := jsOrNum stats.lose_count 0
  let totalTrades := jsOrNum stats.total_trades 0
  let posCount := jsOrNum stats.position_count 0
  let currentEquity := jsOrNum stats.current_equity initial
  let totalFee := jsOrNum stats.total_fee 0
  let maxDD := jsOrNum stats.max_drawdown 0
  let calmar := jsOrNum stats.calmar 0
  let row1 :=
    "<div class=\"stat-card\"><div class=\"label\">总净收益</div><div class=\"value " ++
      (if 0 ≤ totalProfit then "green" else "red") ++ "\">" ++
      (if 0 ≤ totalProfit then "+" else "") ++ toFixed totalProfit 2 ++
      " USDT</div><div class=\"sub\">" ++
      (if 0 ≤ profitPct then "+" else "") ++ toFixed profitPct 2 ++ "%</div></div>" ++
    ("<div class=\"stat-card\"><div class=\"label\">持仓实时净收益</div><div class=\"value " ++
      (if 0 ≤ unrealized then "green" else "red") ++ "\">" ++
      (if 0 ≤ unrealized then "+" else "") ++ toFixed unrealized 2 ++ "</div></div>") ++
    ("<div class=\"stat-card\"><div class=\"label\">胜率</div><div class=\"value yellow\">" ++
      toFixed winRate 1 ++ "%</div><div class=\"sub\">胜:" ++ jsNumToString winCount ++
      " 负:" ++ jsNumToString loseCount ++ "</div></div>") ++
    ("<div class=\"stat-card\"><div class=\"label\">交易次数</div><div class=\"value blue\">" ++
      jsNumToString totalTrades ++ "</div><div class=\"sub\">持仓: " ++
      jsNumToString posCount ++ "</div></div>")
  let row2 :=
    "<div class=\"stat-card\"><div class=\"label\">当前账户余额</div><div class=\"value blue\">" ++
      toFixed currentEquity 2 ++ " USDT</div><div class=\"sub\">初始: " ++
      toFixed initial 2 ++ "</div></div>" ++
    ("<div class=\"stat-card\"><div class=\"label\">累计交易成本</div><div class=\"value red\">- " ++
      toFixed totalFee 2 ++ " USDT</div></div>") ++
    ("<div class=\"stat-card\"><div class=\"label\">收益/回撤</div><div class=\"value green\">+" ++
      toFixed profitPct 2 ++ "% / -" ++ toFixed maxDD 2 ++ "%</div><div class=\"sub\">Calmar: " ++
      toFixed calmar 2 ++ "</div></div>") ++
    ("<div class=\"stat-card\"><div class=\"label\">最大回撤</div><div class=\"value red\">-" ++
      toFixed (maxDD * initial / 100) 2 ++ " USDT (-" ++ toFixed maxDD 2 ++ "%)</div></div>")
  (row1, row2)

/-! ### Chart renderer -/

/-- The loop of `renderProfitChart`: builds, in input order, the x axis
label array, the equity array and the constant baseline array. -/
def buildChartArrays (initial : JSNum) :
    List CurvePoint → List String × List JSNum × List JSNum
  | [] => ([], [], [])
  | item :: rest =>
      let arrays := buildChartArrays initial rest
      (jsLocaleDateTime (curveTs item) :: arrays.1,
        curveEquity item :: arrays.2.1, initial :: arrays.2.2)

/-- `renderProfitChart(data)`: on an empty point list the element shows the
empty state message and no chart is initialised (and the legend element is
left untouched, hence the `Option` on the legend); otherwise the chart is
initialised with the three series and the legend is written. -/
def renderProfitChart (data : ProfitCurve) : ChartContent × Option String :=
  let list := data.data.getD []
  let initial := jsOrNum data.initial_equity 0
  if list.length = 0 then
    (.html "<div style=\"padding:40px;color:#666;text-align:center;\">暂无数据</div>", none)
  else
    let arrays := buildChartArrays initial list
    (.chart arrays.1 arrays.2.1 arrays.2.2,
      some ("权益(USDT) | 基准 " ++ toFixed initial 2 ++ " USDT"))

/-! ### Positions renderer -/

/-- A fixed decimal rendering guarded by JavaScript truthiness: absent or
zero prices render as the dash placeholder. -/
def numFixedOrDash (v : Option JSNum) (digits : Nat) : String :=
  match v with
  | some x => if x = 0 then "-" else toFixed x digits
  | none => "-"

/-- One row of the open positions table. -/
def positionRowHtml (p : Position) : String :=
  let side := jsOrStr p.side "LONG"
  let pnl := jsOrNum p.pnl 0
  let leverage := jsOrNum p.leverage 1
  let tpStr := numFixedOrDash p.tp_price 4
  let slStr := numFixedOrDash p.sl_price 4
  "<tr><td><b>" ++ jsStrCoerce p.symbol ++ "</b></td><td><span class=\"badge " ++
    jsToLower side ++ "\">" ++ side ++ "</span></td><td>" ++
    toFixed (abs (jsOrNum p.size 0)) 4 ++ "</td><td>" ++
    toFixed (jsOrNum p.entry 0) 6 ++ "</td><td>" ++ jsNumToString leverage ++
    "x</td><td>" ++ toFixed (jsOrNum p.mark_price 0) 6 ++
    "</td><td style=\"color:" ++ (if 0 ≤ pnl then "#00c853" else "#ff5252") ++ "\">" ++
    (if 0 ≤ pnl then "+" else "") ++ toFixed pnl 2 ++ " USDT</td><td>TP:" ++
    tpStr ++ " / SL:" ++ slStr ++ "</td></tr>"

/-- `renderPositionsTable(data)`: the markup written into the positions
tab (empty state message when there is no position). -/
def renderPositionsTable (data : PositionsResp) : String :=
  let positions := data.positions.getD []
  if positions.length = 0 then
    "<div style=\"padding:40px;color:#666;text-align:center;\">暂无持仓</div>"
  else
    "<table class=\"data-table\"><thead><tr><th>交易对</th><th>方向</th><th>数量</th><th>入场价格</th><th>杠杆</th><th>标记价</th><th>未实现盈亏</th><th>止盈/止损</th></tr></thead><tbody>" ++
      String.join (positions.map positionRowHtml) ++ "</tbody></table>"

/-! ### Trades renderer -/

/-- A fixed decimal rendering guarded by a null check only (`!= null`):
zero renders as a number, absence as the dash placeholder. -/
def numFixedOrDashNull (v : Option JSNum) (digits : Nat) : String :=
  match v with
  | some x => toFixed x digits
  | none => "-"

/-- One row of the completed trades table. -/
def tradeRowHtml (t : Trade) : String :=
  let side := jsOrStr t.side "LONG"
  let totalFee := (t.total_fee.getD 0)
  let entryTime := match t.entry_time with
    | some ts => if ts = 0 then "-" else jsLocaleDateTime (ts * 1000)
    | none => "-"
  let exitTime := match t.exit_time with
    | some ts => if ts = 0 then "-" else jsLocaleDateTime (ts * 1000)
    | none => "-"
  let holdStr := match t.hold_minutes with
    | some h =>
        if 60 ≤ h then toString (h / 60) ++ "小时" ++ toString (h % 60) ++ "分钟"
        else toString h ++ "分钟"
    | none => "-"
  let entryType := match t.entry_type with
    | some ty => if ty ≠ "" ∧ strContains (jsToLower ty) "limit" then "限价单" else "市价单"
    | none => "市价单"
  let exitType := match t.exit_type with
    | some ty => if ty ≠ "" ∧ strContains (jsToLower ty) "limit" then "限价单" else "市价单"
    | none => "市价单"
  let pnlCell := match t.net_pnl with
    | some v => (if 0 ≤ v then "+" else "") ++ toFixed v 2
    | none => "-"
  let pnlColor := match t.net_pnl with
    | some v => if 0 ≤ v then "#00c853" else "#ff5252"
    | none => "#ff5252"
  let pnlPctCell := match t.pnl_pct with
    | some v => "<br><small>" ++ (if 0 ≤ v then "+" else "") ++ toFixed v 2 ++ "%</small>"
    | none => ""
  let peakCell := match t.peak_pnl with
    | some v => "+" ++ toFixed v 2
    | none => "-"
  let ddCell := match t.max_drawdown with
    | some v => "-" ++ toFixed v 2
    | none => "-"
  "<tr>" ++
    "<td><b>" ++ jsStrCoerce t.symbol ++ "</b></td>" ++
    ("<td><span class=\"badge " ++ jsToLower side ++ "\">" ++ side ++ "</span></td>") ++
    ("<td>" ++ entryType ++ "</td>") ++
    ("<td>" ++ numFixedOrDashNull t.entry_price 6 ++ "</td>") ++
    ("<td>" ++ numFixedOrDashNull t.exit_price 6 ++ "</td>") ++
    ("<td>" ++ exitType ++ "</td>") ++
    ("<td>" ++ numFixedOrDashNull t.quantity 4 ++ "</td>") ++
    ("<td style=\"color:" ++ pnlColor ++ "\">" ++ pnlCell ++ pnlPctCell ++ "</td>") ++
    ("<td style=\"color:#00c853\">" ++ peakCell ++ "</td>") ++
    ("<td style=\"color:#ff5252\">" ++ ddCell ++ "</td>") ++
    ("<td>" ++ toFixed totalFee 2 ++ "</td>") ++
    ("<td>" ++ holdStr ++ "</td>") ++
    ("<td><small>开: " ++ entryTime ++ "<br>平: " ++ exitTime ++ "</small></td>") ++
    "</tr>"

/-- `renderTradesTable(data)`: the markup written into the trades tab,
including the pager controls (previous disabled when `page <= 1`, next
disabled when `page >= pages`). -/
def renderTradesTable (data : TradePageResp) : String :=
  let trades := data.trades.getD []
  let total := jsOrNum data.total (trades.length : JSNum)
  let page := jsOrNum data.page 1
  let pages := jsOrNum data.pages 1
  if trades.length = 0 then
    "<div style=\"padding:40px;color:#666;text-align:center;\">暂无交易记录</div>"
  else
    "<div style=\"padding:10px 16px;color:#888;font-size:12px;\">当前页" ++
      jsNumToString page ++ "(每页 10 条) | 总 " ++ jsNumToString total ++ " 条" ++
    ("<span style=\"float:right;\"><button onclick=\"loadTradesPage(" ++
      jsNumToString (page - 1) ++ ")\" " ++
      (if page ≤ 1 then "disabled style=\"opacity:0.5\"" else "") ++
      ">上一页</button> ") ++
    ("<button onclick=\"loadTradesPage(" ++ jsNumToString (page + 1) ++ ")\" " ++
      (if pages ≤ page then "disabled style=\"opacity:0.5\"" else "") ++
      ">下一页</button></span></div>") ++
    "<table class=\"data-table\"><thead><tr><th>交易对</th><th>方向</th><th>开仓方式</th><th>开仓价</th><th>平仓价</th><th>平仓方式</th><th>数量</th><th>净收益</th><th>峰值收益</th><th>最大回撤</th><th>手续费</th><th>持仓时长</th><th>开平时间</th></tr></thead><tbody>" ++
    String.join (trades.map tradeRowHtml) ++ "</tbody></table>"

/-! ### Decision detail sort

The source sorts the signal array in place with the comparator
`aIsWait - bIsWait`.  `Array.prototype.sort` is required by the language
specification (ES2019 onward) to be stable; it is embedded here as a
stable insertion sort parameterised by the comparator. -/

/-- The `aIsWait` flag of the comparator: the action is exactly `wait` or
exactly `hold`. -/
def signalIsWaitB (s : Signal) : Bool :=
  decide (s.action = some "wait" ∨ s.action = some "hold")

/-- The comparator passed to `signals.sort`. -/
def signalCmp (a b : Signal) : Int :=
  (if signalIsWaitB a then 1 else 0) - (if signalIsWaitB b then 1 else 0)

/-- Stable insertion into an already sorted list: the element passes every
strictly smaller element and stops in front of the first element that is
not strictly smaller, so elements that compare equal keep their original
relative order. -/
def jsStableInsert (c : α → α → Int) (a : α) : List α → List α
  | [] => [a]
  | b :: bs => if c a b ≤ 0 then a :: b :: bs else b :: jsStableInsert c a bs

/-- A stable sort with respect to a JavaScript comparator, the embedding
of `Array.prototype.sort(c)`. -/
def jsSort (c : α → α → Int) : List α → List α
  | [] => []
  | a :: rest => jsStableInsert c a (jsSort c rest)

/-- The signal ordering applied by the decision detail render. -/
def sortSignalsForDisplay (l : List Signal) : List Signal :=
  jsSort signalCmp l

/-! ### Decision list and detail renderers -/

/-- The `i === selectedDecisionIndex` test that selects the highlighted
list item. -/
def decisionItemActive (selected : Int) (i : Nat) : Bool :=
  decide ((i : Int) = selected)

/-- One item of the decision list. -/
def decisionItemHtml (selected : Int) (i : Nat) (d : Decision) : String :=
  let httpStatus := jsOrNum d.http_status 200
  let statusColor := if httpStatus = 200 then "#00c853" else "#ff5252"
  let timeStr := match d.timestamp with
    | some ts => if ts = 0 then "" else jsLocaleDateTime (ts * 1000)
    | none => ""
  "<div class=\"decision-item " ++
    (if decisionItemActive selected i then "active" else "") ++
    "\" onclick=\"selectDecision(" ++ toString i ++ ")\">" ++
  ("<div class=\"round\">第 " ++ jsNumCoerce d.round ++ " 轮决策</div>") ++
  ("<div class=\"status\" style=\"color:" ++ statusColor ++ "\">· HTTP " ++
    jsNumToString httpStatus ++ "</div>") ++
  (if timeStr ≠ "" then
    "<div style=\"font-size:11px;color:#666;margin-top:2px;\">" ++ timeStr ++ "</div>"
   else "") ++
  ("<div class=\"meta\">symbols <b>" ++ jsNumToString (jsOrNum d.symbols_count 0) ++
    "</b>  Signal <span class=\"signal\">" ++ jsNumToString (jsOrNum d.signal_count 0) ++
    "</span>  wait <span class=\"wait\">" ++ jsNumToString (jsOrNum d.wait_count 0) ++
    "</span></div>") ++
  "</div>"

/-- `renderDecisionList()`: the markup of the decision list, highlighting
the item whose index equals the selection index. -/
def renderDecisionList (decisions : List Decision) (selected : Int) : String :=
  if decisions.length = 0 then
    "<div style=\"padding:40px;color:#666;text-align:center;\">暂无决策</div>"
  else
    String.join (decisions.enum.map (fun p => decisionItemHtml selected p.1 p.2))

/-- The dash placeholder rendering of a numeric field guarded by
truthiness (`v || dash`). -/
def numOrDash (v : Option JSNum) : String :=
  match v with
  | some x => if x = 0 then "-" else jsNumToString x
  | none => "-"

/-- Size value resolution: the first truthy of `position_size`,
`quantity`, `order_value`, `amount`; zero and absence both fall through. -/
def firstTruthyNum : List (Option JSNum) → Option JSNum
  | [] => none
  | v :: rest =>
      match v with
      | some x => if x = 0 then firstTruthyNum rest else some x
      | none => firstTruthyNum rest

/-- The rendered size cell of a signal row. -/
def sizeDisplay (s : Signal) : String :=
  match firstTruthyNum [s.position_size, s.quantity, s.order_value, s.amount] with
  | some v => jsNumToString v
  | none => "-"

/-- One row of the signal table of the decision detail. -/
def signalRowHtml (s : Signal) : String :=
  let action := jsOrStr s.action "wait"
  let cls :=
    if action = "wait" ∨ action = "hold" then "wait"
    else if strContains action "long" then "buy" else "sell"
  "<tr><td><b>" ++ jsOrStr s.symbol "-" ++ "</b></td><td><span class=\"badge " ++
    cls ++ "\">" ++ action ++ "</span></td><td>" ++ numOrDash s.entry ++
    "</td><td>" ++ sizeDisplay s ++ "</td><td>" ++ numOrDash s.stop_loss ++
    "</td><td>" ++ numOrDash s.take_profit ++ "</td></tr>"

/-- The visual category of a signal inside the reason panel: `wait`/`hold`
first, then a `long` substring test on a truthy action, else `sell`. -/
def reasonActionCls (sig : Signal) : String :=
  if sig.action = some "wait" ∨ sig.action = some "hold" then "wait"
  else if (match sig.action with
           | some a => a ≠ "" && strContains a "long"
           | none => false) then "buy"
  else "sell"

/-- One per-symbol block of the reason panel (the body of the reason loop
of `renderDecisionDetail`).  The quantitative reason and the AI review
reason pass through `escapeHtml`; the joined invalidation strings do not. -/
def reasonBlockHtml (sig : Signal) : String :=
  let actionCls := reasonActionCls sig
  let aiBadge := match sig.ai_decision with
    | some adec =>
        if adec ≠ "" ∧ adec ≠ "-" then
          let aiColor :=
            if adec = "APPROVE" then "#00c853"
            else if adec = "CLOSE" then "#ffc107" else "#ff5252"
          " <span style=\"margin-left:10px;padding:2px 8px;border-radius:3px;font-size:11px;background:" ++
            aiColor ++ "22;color:" ++ aiColor ++ ";\">AI: " ++ adec ++ "</span>"
        else ""
    | none => ""
  let quantDiv := match sig.reason with
    | some r =>
        if r ≠ "" then
          "<div style=\"color:#aaa;font-size:12px;line-height:1.6;margin-bottom:6px;\"><b>量化:</b> " ++
            escapeHtml (some r) ++ "</div>"
        else ""
    | none => ""
  let aiDiv := match sig.ai_reason with
    | some r =>
        if r ≠ "" ∧ r ≠ "-" then
          "<div style=\"color:#5ab2ff;font-size:12px;line-height:1.6;\"><b>AI审核:</b> " ++
            escapeHtml (some r) ++ "</div>"
        else ""
    | none => ""
  let invDiv := match sig.invalidations with
    | some invs =>
        if 0 < invs.length then
          "<div style=\"margin-top:6px;color:#ff5252;font-size:11px;\">失效条件: " ++
            String.intercalate ", " invs ++ "</div>"
        else ""
    | none => ""
  "<div style=\"margin-bottom:12px;padding:10px;background:#0a0c10;border-radius:4px;\">" ++
    ("<div style=\"margin-bottom:6px;\"><b style=\"color:#5ab2ff;\">" ++
      jsOrStr sig.symbol "-" ++ "</b> <span class=\"badge " ++ actionCls ++
      "\" style=\"margin-left:8px;\">" ++ jsOrStr sig.action "wait" ++ "</span>") ++
    aiBadge ++ "</div>" ++ quantDiv ++ aiDiv ++ invDiv ++ "</div>"

/-- `contentRaw`: the nested `content` field of a truthy `response_raw`,
coerced to a string, with falsy values collapsing to the empty string. -/
def decisionContentRaw (d : Decision) : String :=
  match d.response_raw with
  | some v =>
      if jsTruthyVal v then
        match jsGetField v "content" with
        | some cv => if jsTruthyVal cv then jsValCoerceString cv else ""
        | none => ""
      else ""
  | none => ""

/-- `requestContent`: the raw request payload, stringified when it is an
object or an array, coerced otherwise. -/
def decisionRequestContent (d : Decision) : String :=
  match d.request with
  | some v =>
      if jsTruthyVal v then
        match v with
        | .obj _ => jsonStringify2 v
        | .arr _ => jsonStringify2 v
        | _ => jsValCoerceString v
      else ""
  | none => ""

/-- `responseContent`: the raw response payload, stringified when it is an
object or an array, coerced otherwise. -/
def decisionResponseContent (d : Decision) : String :=
  match d.response_raw with
  | some v =>
      if jsTruthyVal v then
        match v with
        | .obj _ => jsonStringify2 v
        | .arr _ => jsonStringify2 v
        | _ => jsValCoerceString v
      else ""
  | none => ""

/-- The repeated collapsible section shell of the detail view. -/
def collapsibleSection (title inner : String) : String :=
  "<div class=\"collapsible-section\"><div class=\"collapsible-header\" onclick=\"toggleCollapsible(this)\"><span class=\"arrow\">▶</span> " ++
    title ++ "</div><div class=\"collapsible-body\">" ++ inner ++ "</div></div>"

/-- The repeated preformatted code block of the detail view. -/
def preBlock (content : String) : String :=
  "<pre class=\"code-block\" style=\"white-space:pre-wrap;word-break:break-all;\">" ++
    content ++ "</pre>"

/-- The placeholder shown in the detail pane when no decision is
available. -/
def noSelectionHtml : String :=
  "<div style=\"color:#666;text-align:center;padding:40px;\">选择左侧决策</div>"

/-- The in-place mutation `signals.sort(...)` performs on the stored
decision: when the decision carries a signal list, that list is reordered
in place; when the field is absent the sort runs on a fresh empty array
and the decision is untouched. -/
def mutateDecision (d : Decision) : Decision :=
  match d.signals with
  | none => d
  | some l => { d with signals := some (sortSignalsForDisplay l) }

/-- The detail header line. -/
def detailHeaderHtml (d : Decision) : String :=
  "<div class=\"detail-header\"><div class=\"detail-title\">第 " ++
    jsNumCoerce d.round ++ " 轮决策 <span style=\"color:#888;font-weight:normal;\">(" ++
    jsNumToString (jsOrNum d.symbols_count 0) ++
    " 个币种)</span></div><div class=\"detail-meta\">Signal <span style=\"color:#ff5252;\">" ++
    jsNumToString (jsOrNum d.signal_count 0) ++
    "</span> · wait <span style=\"color:#00c853;\">" ++
    jsNumToString (jsOrNum d.wait_count 0) ++ "</span> · HTTP " ++
    jsNumToString (jsOrNum d.http_status 200) ++ "</div></div>"

/-- The signal table section of the detail view (rows in the sorted
display order, or the placeholder row when there is no signal). -/
def signalTableHtml (signals : List Signal) : String :=
  "<div class=\"table-wrap signal-table\"><table class=\"data-table\"><thead><tr><th>Symbol</th><th>Action</th><th>Entry</th><th>Size</th><th>SL</th><th>TP</th></tr></thead><tbody>" ++
    (if String.join (signals.map signalRowHtml) = "" then
      "<tr><td colspan=\"6\" style=\"text-align:center;color:#666;\">本次推理无 signals / decision 数据</td></tr>"
     else String.join (signals.map signalRowHtml)) ++ "</tbody></table></div>"

/-- The concatenated per-symbol reason blocks. -/
def reasonListHtml (signals : List Signal) : String :=
  String.join (signals.map reasonBlockHtml)

/-- The reason panel body: the concatenated blocks, or the placeholder
when the accumulated markup is empty (zero signals). -/
def reasonPanelHtml (signals : List Signal) : String :=
  if reasonListHtml signals = "" then
    "<div style=\"color:#666;padding:20px;text-align:center;\">无 reason 数据</div>"
  else reasonListHtml signals

/-- `renderDecisionDetail(d)`: returns the markup written into the detail
pane together with the decision as it is left behind in the store (the
signal sort mutates the shared array in place). -/
def renderDecisionDetail : Option Decision → String × Option Decision
  | none => (noSelectionHtml, none)
  | some d =>
      let signals := sortSignalsForDisplay (d.signals.getD [])
      (detailHeaderHtml d ++
        signalTableHtml signals ++
        collapsibleSection "查看每个币种的 reason" (reasonPanelHtml signals) ++
        collapsibleSection "查看原始 decision 输出(Response.content)"
          (preBlock (escapeHtml (some (jsOrStrS (decisionContentRaw d) "无数据")))) ++
        collapsibleSection "投喂内容(Request)"
          (preBlock (escapeHtml (some (jsOrStrS (decisionRequestContent d) "无数据")))) ++
        collapsibleSection "原始输出(Response JSON)"
          (preBlock (escapeHtml (some (jsOrStrS (decisionResponseContent d) "无数据")))),
       some (mutateDecision d))

/-! ### Flows -/

/-- `Promise.all` over the four dashboard fetches: resolves only when all
four resolve, rejects as soon as any rejects (modelled with the leftmost
rejection). -/
def promiseAll4 (a : Except String α) (b : Except String β)
    (c : Except String γ) (d : Except String δ) :
    Except String (α × β × γ × δ) :=
  match a with
  | .error e => .error e
  | .ok va =>
    match b with
    | .error e => .error e
    | .ok vb =>
      match c with
      | .error e => .error e
      | .ok vc =>
        match d with
        | .error e => .error e
        | .ok vd => .ok (va, vb, vc, vd)

/-- `loadDashboard()`: joins the four fetch outcomes; on success every
dashboard element is rewritten from the results in one state transition,
on any rejection the catch handler logs and the state is returned
untouched.  The second component is the console error output. -/
def loadDashboard (ui : UIState)
    (rs : Except String DashboardStats) (rp : Except String ProfitCurve)
    (rpos : Except String PositionsResp) (rt : Except String TradePageResp) :
    UIState × Option String :=
  match promiseAll4 rs rp rpos rt with
  | .error e => (ui, some ("loadDashboard error: " ++ e))
  | .ok (stats, profit, positions, trades) =>
      let rows := renderDashboardStats stats profit
      let chartOut := renderProfitChart profit
      let initial := jsOrNum profit.initial_equity 0
      ({ ui with
          statsRow1 := rows.1
          statsRow2 := rows.2
          profitChart := chartOut.1
          chartLegend := match chartOut.2 with
            | some l => l
            | none => ui.chartLegend
          positionsHtml := renderPositionsTable positions
          tradesHtml := renderTradesTable trades
          posCount := jsNumToString ((positions.positions.getD []).length : JSNum)
          tradeCount := jsNumToString (jsOrNum trades.total 0)
          subtitle := "Stats | Base: " ++ toFixed initial 2 ++ " USDT" }, none)

/-- Array indexing `currentDecisions[index]` with a possibly out of range
or negative index: out of range access yields `undefined`. -/
def jsIndex (l : List Decision) (i : Int) : Option Decision :=
  if 0 ≤ i then l.get? i.toNat else none

/-- `selectDecision(index)`: stores the index unconditionally, re-renders
the list (moving the highlight) and fully re-renders the detail pane for
the indexed decision; the in-place signal sort of the detail render lands
back in the stored decision list. -/
def selectDecision (index : Int) (st : UIState) : UIState :=
  let st1 := { st with selectedDecisionIndex := index }
  let st2 := { st1 with decisionListHtml := renderDecisionList st1.currentDecisions index }
  let rendered := renderDecisionDetail (jsIndex st2.currentDecisions index)
  let decisions := match rendered.2 with
    | some dm =>
        if 0 ≤ index then st2.currentDecisions.set index.toNat dm
        else st2.currentDecisions
    | none => st2.currentDecisions
  { st2 with decisionDetailHtml := rendered.1, currentDecisions := decisions }

/-- The filter applied at load time: `(d.symbols_count || 0) > 0`. -/
def keepDecision (d : Decision) : Bool :=
  decide ((0 : JSNum) < jsOrNum d.symbols_count 0)

/-- `loadAIDecisions()`: on success stores the filtered decision list,
writes the summary, renders the list (still under the previous selection
index) and, only when the filtered list is non-empty, selects index 0; on
rejection the catch handler logs and the state is returned untouched.
The second component is the console error output.  (The `limit` query
parameter only shapes the request URL and is not observable in the
response handling modelled here.) -/
def loadAIDecisions (st : UIState) (resp : Except String DecisionsResponse) :
    UIState × Option String :=
  match resp with
  | .error e => (st, some ("loadAIDecisions error: " ++ e))
  | .ok data =>
      let allDecisions := data.decisions.getD []
      let filtered := allDecisions.filter keepDecision
      let total := jsOrNum data.total 0
      let st1 := { st with
        currentDecisions := filtered
        aiSummary := "共 " ++ jsNumToString total ++ " 条 · 已执行 " ++
          jsNumToString total ++ " 轮决策" }
      let st2 := { st1 with
        decisionListHtml := renderDecisionList st1.currentDecisions st1.selectedDecisionIndex }
      if 0 < filtered.length then (selectDecision 0 st2, none) else (st2, none)

/-- The observable outcome of one `loadTradesPage` call: the resulting
state, the request URL when a network call was issued, the rejection that
escaped to the top level (the source chain has no catch handler), and the
console error output (the source never logs in this flow). -/
structure TradesLoadResult where
  state : UIState
  fetchUrl : Option String
  uncaught : Option String
  logged : Option String

/-- `loadTradesPage(page)`: pages below 1 return before anything happens;
otherwise `currentTradesPage` is overwritten first, the page is fetched,
and the response handler rewrites the trades tab and the total count.  A
rejected fetch is not caught anywhere in the chain. -/
def loadTradesPage (page : JSNum) (st : UIState)
    (net : Except String TradePageResp) : TradesLoadResult :=
  if page < 1 then
    { state := st, fetchUrl := none, uncaught := none, logged := none }
  else
    let st1 := { st with currentTradesPage := page }
    let url := "/completed_trades?limit=10&page=" ++ jsNumToString page
    match net with
    | .error e =>
        { state := st1, fetchUrl := some url, uncaught := some e, logged := none }
    | .ok data =>
        { state := { st1 with
            tradesHtml := renderTradesTable data
            tradeCount := jsNumToString (jsOrNum data.total 0) },
          fetchUrl := some url, uncaught := none, logged := none }

/-! ### Concrete fixtures used by the closed theorems below -/

/-- The document state at script start. -/
def uiState0 : UIState := {}

/-- A document state in which decision 3 had been selected earlier. -/
def uiSel3 : UIState := { selectedDecisionIndex := 3 }

/-- A signal whose action is exactly `wait`. -/
def sigWait0 : Signal := { symbol := some "ETHUSDT", action := some "wait" }

/-- A signal with a directional action. -/
def sigLong0 : Signal := { symbol := some "BTCUSDT", action := some "open_long" }

/-- A signal carrying a hostile invalidation condition string. -/
def sigInv0 : Signal :=
  { symbol := some "BTCUSDT", action := some "open_long",
    invalidations := some ["<script>alert(1)</script>"],
    reason := some "breakout & retest" }

/-- A decision whose stored signal list starts with the wait signal. -/
def dec0 : Decision :=
  { round := some 1, symbols_count := some 2, signals := some [sigWait0, sigLong0] }

/-- A decision carrying the hostile signal. -/
def decInv0 : Decision :=
  { round := some 2, symbols_count := some 1, signals := some [sigInv0] }

/-- A non-empty decision round without a signal list. -/
def decOk0 : Decision := { round := some 3, symbols_count := some 2 }

/-- A decisions response that filters to a single kept decision. -/
def dataOk0 : DecisionsResponse := { decisions := some [decOk0], total := some 1 }

/-- A decisions response that filters to nothing. -/
def dataEmpty0 : DecisionsResponse := { decisions := some [], total := some 5 }

/-- Concrete dashboard stats payload. -/
def stats0 : DashboardStats :=
  { total_profit := some (301/2), profit_pct := some (16/5) }

/-- Concrete profit curve payload with both point shapes. -/
def profit0 : ProfitCurve :=
  { data := some [.tuple 1 10, .obj 2 20], initial_equity := some 5000 }

/-- Concrete positions payload. -/
def positions0 : PositionsResp := { positions := some [] }

/-- Concrete trades payload. -/
def trades0 : TradePageResp := {}

/-! ### Helper lemmas: substring containment -/

/-- Containment follows from infix containment of the character data. -/
theorem strContains_of_infix {s sub : String} (h : sub.data <:+: s.data) :
    strContains s sub = true := by
  simpa [strContains] using h

/-- Every string contains itself. -/
theorem strContains_refl (x : String) : strContains x x = true :=
  strContains_of_infix (List.infix_refl _)

/-- Every string contains the empty string. -/
theorem strContains_empty (s : String) : strContains s "" = true :=
  strContains_of_infix List.nil_infix

/-- Containment survives appending on the right. -/
theorem strContains_appendL (s t x : String) (h : strContains s x = true) :
    strContains (s ++ t) x = true := by
  apply strContains_of_infix
  have hx : x.data <:+: s.data := by simpa [strContains] using h
  refine hx.trans ⟨[], t.data, ?_⟩
  simp [String.data_append]

/-- Containment survives appending on the left. -/
theorem strContains_appendR (s t x : String) (h : strContains t x = true) :
    strContains (s ++ t) x = true := by
  apply strContains_of_infix
  have hx : x.data <:+: t.data := by simpa [strContains] using h
  refine hx.trans ⟨s.data, [], ?_⟩
  simp [String.data_append]

/-! ### Helper lemmas: the stable sort -/

/-- An element that never compares strictly greater is inserted at the
front. -/
theorem jsStableInsert_front {c : α → α → Int} {a : α} :
    ∀ {l : List α}, (∀ b ∈ l, c a b ≤ 0) → jsStableInsert c a l = a :: l
  | [], _ => rfl
  | b :: bs, h => by
      simp only [jsStableInsert, if_pos (h b (List.mem_cons_self b bs))]

/-- Insertion passes over a leading block of strictly smaller elements. -/
theorem jsStableInsert_skip {c : α → α → Int} {a : α} :
    ∀ (l₀ l₁ : List α), (∀ b ∈ l₀, 0 < c a b) →
      jsStableInsert c a (l₀ ++ l₁) = l₀ ++ jsStableInsert c a l₁
  | [], _, _ => by simp
  | b :: bs, l₁, h => by
      have hb : 0 < c a b := h b (List.mem_cons_self b bs)
      simp only [List.cons_append, jsStableInsert, if_neg (not_le.mpr hb),
        List.append_eq]
      rw [jsStableInsert_skip bs l₁ (fun x hx => h x (List.mem_cons_of_mem b hx))]

/-- The comparator value determined by the two wait flags. -/
theorem signalCmp_eval (a b : Signal) :
    signalCmp a b =
      (if signalIsWaitB a then 1 else 0) - (if signalIsWaitB b then 1 else 0) := rfl

/-- The sort of the decision detail is the stable partition: the non-wait
signals in original order, then the wait signals in original order. -/
theorem jsSort_signal_partition :
    ∀ l : List Signal,
      sortSignalsForDisplay l =
        l.filter (fun s => !signalIsWaitB s) ++ l.filter (fun s => signalIsWaitB s)
  | [] => rfl
  | a :: l => by
      have ih := jsSort_signal_partition l
      simp only [sortSignalsForDisplay, jsSort] at ih ⊢
      rw [ih]
      by_cases ha : signalIsWaitB a
      · have hskip : ∀ b ∈ l.filter (fun s => !signalIsWaitB s), 0 < signalCmp a b := by
          intro b hb
          have hb' : signalIsWaitB b = false := by
            have := (List.mem_filter.mp hb).2
            simpa using this
          simp [signalCmp_eval, ha, hb']
        rw [jsStableInsert_skip _ _ hskip]
        have hfront : ∀ b ∈ l.filter (fun s => signalIsWaitB s),
            signalCmp a b ≤ 0 := by
          intro b hb
          have hb' : signalIsWaitB b = true := (List.mem_filter.mp hb).2
          simp [signalCmp_eval, ha, hb']
        rw [jsStableInsert_front hfront]
        simp [List.filter_cons, ha]
      · have hfront : ∀ b ∈ (l.filter (fun s => !signalIsWaitB s) ++
            l.filter (fun s => signalIsWaitB s)), signalCmp a b ≤ 0 := by
          intro b _
          have ha' : signalIsWaitB a = false := by simpa using ha
          by_cases hb : signalIsWaitB b <;> simp [signalCmp_eval, ha', hb]
        rw [jsStableInsert_front hfront]
        simp [List.filter_cons, ha]

/-! ### Helper lemmas: load flows -/

/-- The mutation of the in-place signal sort leaves every field except the
signal list unchanged; in particular the symbol count. -/
theorem mutateDecision_symbols_count (d : Decision) :
    (mutateDecision d).symbols_count = d.symbols_count := by
  unfold mutateDecision
  cases d.signals <;> rfl

/-- The detail render always hands back a mutated decision when given
one. -/
theorem renderDecisionDetail_snd (d : Decision) :
    (renderDecisionDetail (some d)).2 = some (mutateDecision d) := rfl

/-- `loadDashboard` on any rejection: the catch handler logs and the state
is untouched. -/
theorem loadDashboard_error_spec (ui : UIState)
    (rs : Except String DashboardStats) (rp : Except String ProfitCurve)
    (rpos : Except String PositionsResp) (rt : Except String TradePageResp)
    (e : String) (h : promiseAll4 rs rp rpos rt = Except.error e) :
    loadDashboard ui rs rp rpos rt = (ui, some ("loadDashboard error: " ++ e)) := by
  simp only [loadDashboard, h]

/-- If any of the four fetches rejects, the join rejects. -/
theorem promiseAll4_error (rs : Except String DashboardStats)
    (rp : Except String ProfitCurve) (rpos : Except String PositionsResp)
    (rt : Except String TradePageResp) (e : String)
    (h : rs = Except.error e ∨ rp = Except.error e ∨ rpos = Except.error e ∨
      rt = Except.error e) :
    ∃ e2, promiseAll4 rs rp rpos rt = Except.error e2 := by
  rcases h with h | h | h | h
  · exact ⟨e, by simp [promiseAll4, h]⟩
  · cases rs with
    | error e1 => exact ⟨e1, rfl⟩
    | ok v => exact ⟨e, by simp [promiseAll4, h]⟩
  · cases rs with
    | error e1 => exact ⟨e1, rfl⟩
    | ok v =>
      cases rp with
      | error e1 => exact ⟨e1, rfl⟩
      | ok w => exact ⟨e, by simp [promiseAll4, h]⟩
  · cases rs with
    | error e1 => exact ⟨e1, rfl⟩
    | ok v =>
      cases rp with
      | error e1 => exact ⟨e1, rfl⟩
      | ok w =>
        cases rpos with
        | error e1 => exact ⟨e1, rfl⟩
        | ok u => exact ⟨e, by simp [promiseAll4, h]⟩

/-- `jsOrNum` of a present value with default zero is the value itself
(zero maps to the zero default). -/
theorem jsOrNum_some_zero (x : JSNum) : jsOrNum (some x) 0 = x := by
  unfold jsOrNum
  split <;> simp_all

/-- The three chart arrays have the length of the point list, and every
baseline entry is the initial equity. -/
theorem buildChartArrays_spec (initial : JSNum) :
    ∀ l : List CurvePoint,
      (buildChartArrays initial l).1.length = l.length ∧
      (buildChartArrays initial l).2.1.length = l.length ∧
      (buildChartArrays initial l).2.2.length = l.length ∧
      ∀ v ∈ (buildChartArrays initial l).2.2, v = initial
  | [] => by simp [buildChartArrays]
  | p :: rest => by
      have ih := buildChartArrays_spec initial rest
      simp only [buildChartArrays, List.length_cons, List.mem_cons]
      refine ⟨by simp [ih.1], by simp [ih.2.1], by simp [ih.2.2.1], ?_⟩
      rintro v (rfl | hv)
      · rfl
      · exact ih.2.2.2 v hv

/-- `loadAIDecisions` on a response that filters to nothing: the filtered
empty list is stored and the selection index is left as it was. -/
theorem loadAIDecisions_ok_nil (st : UIState) (data : DecisionsResponse)
    (hf : (data.decisions.getD []).filter keepDecision = []) :
    ((loadAIDecisions st (Except.ok data)).1).selectedDecisionIndex =
      st.selectedDecisionIndex ∧
    ((loadAIDecisions st (Except.ok data)).1).currentDecisions = [] := by
  constructor <;> simp [loadAIDecisions, hf]

/-- `loadAIDecisions` on a response that filters to a non-empty list:
index 0 is selected, and the stored list is the filtered list with its
head mutated by the in-place sort of the detail render. -/
theorem loadAIDecisions_ok_cons (st : UIState) (data : DecisionsResponse)
    (d0 : Decision) (rest : List Decision)
    (hf : (data.decisions.getD []).filter keepDecision = d0 :: rest) :
    ((loadAIDecisions st (Except.ok data)).1).selectedDecisionIndex = 0 ∧
    ((loadAIDecisions st (Except.ok data)).1).currentDecisions =
      mutateDecision d0 :: rest := by
  constructor <;>
    simp [loadAIDecisions, hf, selectDecision, jsIndex, renderDecisionDetail_snd]

/-! ### Claim theorems -/

/-- Claim C1: `loadDashboard` issues four concurrent requests and hands
results to the four downstream renderers only after all four resolve, in
one atomic state transition; if any of the four requests fails, no
renderer output reaches the state at all, the failure is logged, and the
prior UI state is left unchanged. -/
theorem c1_loadDashboard_all_or_nothing (ui : UIState)
    (rs : Except String DashboardStats) (rp : Except String ProfitCurve)
    (rpos : Except String PositionsResp) (rt : Except String TradePageResp) :
    ((∃ e, rs = Except.error e ∨ rp = Except.error e ∨ rpos = Except.error e ∨
        rt = Except.error e) →
      (loadDashboard ui rs rp rpos rt).1 = ui ∧
      ∃ msg, (loadDashboard ui rs rp rpos rt).2 = some msg) ∧
    (∀ stats profit positions trades,
      rs = Except.ok stats → rp = Except.ok profit →
      rpos = Except.ok positions → rt = Except.ok trades →
      (loadDashboard ui rs rp rpos rt).2 = none ∧
      ((loadDashboard ui rs rp rpos rt).1).statsRow1 =
        (renderDashboardStats stats profit).1 ∧
      ((loadDashboard ui rs rp rpos rt).1).statsRow2 =
        (renderDashboardStats stats profit).2 ∧
      ((loadDashboard ui rs rp rpos rt).1).profitChart =
        (renderProfitChart profit).1 ∧
      ((loadDashboard ui rs rp rpos rt).1).positionsHtml =
        renderPositionsTable positions ∧
      ((loadDashboard ui rs rp rpos rt).1).tradesHtml =
        renderTradesTable trades) := by
  constructor
  · rintro ⟨e, h⟩
    obtain ⟨e2, he⟩ := promiseAll4_error rs rp rpos rt e h
    rw [loadDashboard_error_spec ui rs rp rpos rt e2 he]
    exact ⟨rfl, ⟨_, rfl⟩⟩
  · intro stats profit positions trades hs hp hpos ht
    subst hs; subst hp; subst hpos; subst ht
    refine ⟨rfl, rfl, rfl, rfl, rfl, rfl⟩

/-- Claim C1 witness: a concrete rejected stats fetch leaves the initial
state untouched and produces a log entry. -/
theorem c1_witness :
    (loadDashboard uiState0 (Except.error "boom") (Except.ok profit0)
      (Except.ok positions0) (Except.ok trades0)).1 = uiState0 ∧
    ∃ msg, (loadDashboard uiState0 (Except.error "boom") (Except.ok profit0)
      (Except.ok positions0) (Except.ok trades0)).2 = some msg :=
  (c1_loadDashboard_all_or_nothing uiState0 (Except.error "boom")
    (Except.ok profit0) (Except.ok positions0) (Except.ok trades0)).1
    ⟨"boom", Or.inl rfl⟩

/-- Claim C2: the ordering applied by the decision detail render is a
stable partition: every signal whose action is exactly `wait` or `hold`
ends after every other signal, relative order inside each of the two
partitions is preserved, and the comparator returns 0 for any pair inside
the same partition. -/
theorem c2_detail_sort_stable_partition :
    (∀ l : List Signal,
      sortSignalsForDisplay l =
        l.filter (fun s => !signalIsWaitB s) ++ l.filter (fun s => signalIsWaitB s)) ∧
    (∀ a b : Signal, signalIsWaitB a = signalIsWaitB b → signalCmp a b = 0) := by
  constructor
  · exact jsSort_signal_partition
  · intro a b h
    rw [signalCmp_eval, h]
    omega

/-- Claim C2 witness: the concrete two-signal list is partitioned with the
wait signal moved after the directional one, and the comparator vanishes
on a same-partition pair. -/
theorem c2_witness :
    sortSignalsForDisplay [sigWait0, sigLong0] = [sigLong0, sigWait0] ∧
    signalCmp sigWait0 sigWait0 = 0 := by
  constructor
  · rw [c2_detail_sort_stable_partition.1 [sigWait0, sigLong0]]
    rfl
  · exact c2_detail_sort_stable_partition.2 sigWait0 sigWait0 rfl

/-- Claim C4 counterexample: rendering the detail of a stored decision
whose signals start with a wait signal reorders the stored signal list in
place — after the render the stored order differs from the original. -/
theorem c4_counterexample :
    (renderDecisionDetail (some dec0)).2 =
      some { dec0 with signals := some [sigLong0, sigWait0] } ∧
    some [sigLong0, sigWait0] ≠ dec0.signals := by
  constructor
  · rfl
  · intro h
    have h1 : ([sigLong0, sigWait0] : List Signal) = [sigWait0, sigLong0] := by
      have h2 : dec0.signals = some [sigWait0, sigLong0] := rfl
      rw [h2] at h
      exact Option.some.inj h
    have h3 : sigLong0 = sigWait0 := (List.cons.inj h1).1
    have h4 : sigLong0.action = sigWait0.action := by rw [h3]
    simp [sigLong0, sigWait0] at h4

/-- Claim C4, amended: rendering the decision detail sorts the stored
signal list of the stored decision in place — afterwards the stored order is the
stable partition of the previous order (and a decision without a signal
list is left untouched). -/
theorem c4_amended_render_mutates (d : Decision) (l : List Signal)
    (h : d.signals = some l) :
    (renderDecisionDetail (some d)).2 =
      some { d with signals := some (sortSignalsForDisplay l) } := by
  rw [renderDecisionDetail_snd]
  unfold mutateDecision
  rw [h]

/-- Claim C4 witness: the amended mutation equation at the concrete
decision. -/
theorem c4_witness :
    (renderDecisionDetail (some dec0)).2 =
      some { dec0 with signals := some (sortSignalsForDisplay [sigWait0, sigLong0]) } :=
  c4_amended_render_mutates dec0 [sigWait0, sigLong0] rfl

/-- Claim C5: the decision list retained by `loadAIDecisions` never
contains a decision whose symbol count is zero (or absent): empty rounds
are filtered out at load time. -/
theorem c5_no_empty_rounds (st : UIState) (data : DecisionsResponse)
    (d : Decision)
    (h : d ∈ ((loadAIDecisions st (Except.ok data)).1).currentDecisions) :
    jsOrNum d.symbols_count 0 ≠ 0 ∧ d.symbols_count ≠ some 0 := by
  have hkeep : keepDecision d = true := by
    rcases hemp : (data.decisions.getD []).filter keepDecision with _ | ⟨d0, rest⟩
    · rw [(loadAIDecisions_ok_nil st data hemp).2] at h
      cases h
    · rw [(loadAIDecisions_ok_cons st data d0 rest hemp).2] at h
      rcases List.mem_cons.mp h with h1 | h1
      · subst h1
        have hd0 : d0 ∈ (data.decisions.getD []).filter keepDecision := by
          rw [hemp]
          exact List.mem_cons_self _ _
        have hk0 : keepDecision d0 = true := (List.mem_filter.mp hd0).2
        unfold keepDecision at hk0 ⊢
        rw [mutateDecision_symbols_count]
        exact hk0
      · have hd : d ∈ (data.decisions.getD []).filter keepDecision := by
          rw [hemp]
          exact List.mem_cons_of_mem _ h1
        exact (List.mem_filter.mp hd).2
  have hpos : (0 : JSNum) < jsOrNum d.symbols_count 0 := of_decide_eq_true hkeep
  refine ⟨hpos.ne', ?_⟩
  intro hc
  rw [hc] at hpos
  simp [jsOrNum] at hpos

/-- Claim C5 witness: the concrete kept decision is a member of the
retained list and its symbol count is non-zero. -/
theorem c5_witness :
    jsOrNum decOk0.symbols_count 0 ≠ 0 ∧ decOk0.symbols_count ≠ some 0 :=
  c5_no_empty_rounds uiState0 dataOk0 decOk0 (by
    rw [show ((loadAIDecisions uiState0 (Except.ok dataOk0)).1).currentDecisions =
      [decOk0] from rfl]
    exact List.mem_singleton.mpr rfl)

/-- Claim C6 counterexample: a reload whose response filters to an empty
decision list completes without resetting the selection index — the stale
index 3 survives, so the index is not reset to 0 after every completion of
`loadAIDecisions`. -/
theorem c6_counterexample :
    ((loadAIDecisions uiSel3 (Except.ok dataEmpty0)).1).selectedDecisionIndex = 3 ∧
    (3 : Int) ≠ 0 := by
  constructor
  · rfl
  · decide

/-- Claim C6, amended: when the filtered list is non-empty,
`loadAIDecisions` resets the selection index to 0, which is then a valid
index into the stored list; when the filtered list is empty, the previous
selection index persists unchanged alongside the empty list. -/
theorem c6_amended_selection_reset (st : UIState) (data : DecisionsResponse) :
    ((data.decisions.getD []).filter keepDecision ≠ [] →
      ((loadAIDecisions st (Except.ok data)).1).selectedDecisionIndex = 0 ∧
      0 < ((loadAIDecisions st (Except.ok data)).1).currentDecisions.length) ∧
    ((data.decisions.getD []).filter keepDecision = [] →
      ((loadAIDecisions st (Except.ok data)).1).selectedDecisionIndex =
        st.selectedDecisionIndex ∧
      ((loadAIDecisions st (Except.ok data)).1).currentDecisions = []) := by
  constructor
  · intro hne
    rcases hemp : (data.decisions.getD []).filter keepDecision with _ | ⟨d0, rest⟩
    · exact absurd hemp hne
    · have hc := loadAIDecisions_ok_cons st data d0 rest hemp
      refine ⟨hc.1, ?_⟩
      rw [hc.2]
      simp
  · intro hnil
    exact loadAIDecisions_ok_nil st data hnil

/-- Claim C6 witness: the amended reset at a concrete non-empty reload. -/
theorem c6_witness :
    ((loadAIDecisions uiSel3 (Except.ok dataOk0)).1).selectedDecisionIndex = 0 ∧
    0 < ((loadAIDecisions uiSel3 (Except.ok dataOk0)).1).currentDecisions.length :=
  (c6_amended_selection_reset uiSel3 dataOk0).1 (by
    rw [show ((dataOk0.decisions.getD []).filter keepDecision) = [decOk0] from rfl]
    exact List.cons_ne_nil _ _)

/-- Claim C7 counterexample: a rejected trades page fetch is not caught
anywhere — the rejection escapes to the top level, nothing is logged, and
the process-wide page variable has already been overwritten (prior state
not preserved). -/
theorem c7_counterexample :
    (loadTradesPage 2 uiState0 (Except.error "network down")).uncaught =
      some "network down" ∧
    (loadTradesPage 2 uiState0 (Except.error "network down")).logged = none ∧
    (loadTradesPage 2 uiState0 (Except.error "network down")).state.currentTradesPage
      = 2 ∧
    uiState0.currentTradesPage = 1 := by
  refine ⟨?_, ?_, ?_, rfl⟩ <;> rfl

/-- Claim C7, amended: the dashboard and decisions load flows catch any
fetch rejection, log it with a flow-identifying context and leave the
state untouched; the trades page flow has no catch handler, so its fetch
rejection escapes unlogged after `currentTradesPage` has already been
overwritten. -/
theorem c7_amended_error_handling :
    (∀ (ui : UIState) (rs : Except String DashboardStats)
        (rp : Except String ProfitCurve) (rpos : Except String PositionsResp)
        (rt : Except String TradePageResp) (e : String),
      promiseAll4 rs rp rpos rt = Except.error e →
      loadDashboard ui rs rp rpos rt = (ui, some ("loadDashboard error: " ++ e))) ∧
    (∀ (st : UIState) (e : String),
      loadAIDecisions st (Except.error e) =
        (st, some ("loadAIDecisions error: " ++ e))) ∧
    (∀ (page : JSNum) (st : UIState) (e : String), 1 ≤ page →
      (loadTradesPage page st (Except.error e)).uncaught = some e ∧
      (loadTradesPage page st (Except.error e)).logged = none ∧
      (loadTradesPage page st (Except.error e)).state =
        { st with currentTradesPage := page }) := by
  refine ⟨loadDashboard_error_spec, fun st e => rfl, ?_⟩
  intro page st e h
  have hn : ¬ page < 1 := not_lt.mpr h
  unfold loadTradesPage
  rw [if_neg hn]
  exact ⟨rfl, rfl, rfl⟩

/-- Claim C7 witness: the amended statement applied at a concrete rejected
trades page fetch. -/
theorem c7_witness :
    (loadTradesPage 2 uiSel3 (Except.error "boom")).uncaught = some "boom" ∧
    (loadTradesPage 2 uiSel3 (Except.error "boom")).logged = none ∧
    (loadTradesPage 2 uiSel3 (Except.error "boom")).state =
      { uiSel3 with currentTradesPage := 2 } :=
  c7_amended_error_handling.2.2 2 uiSel3 "boom" (by norm_num)

/-- Claim C8: for every page argument below 1, `loadTradesPage` is a
silent no-op: no network call is issued, no error surfaces, and the state
(including the process-wide current page variable) is unchanged. -/
theorem c8_loadTradesPage_rejects_small_pages (page : JSNum) (st : UIState)
    (net : Except String TradePageResp) (h : page < 1) :
    loadTradesPage page st net =
      { state := st, fetchUrl := none, uncaught := none, logged := none } := by
  unfold loadTradesPage
  rw [if_pos h]

/-- Claim C8 witness: pages 0 and -1 are both silent no-ops on the initial
state. -/
theorem c8_witness :
    loadTradesPage 0 uiState0 (Except.ok trades0) =
      { state := uiState0, fetchUrl := none, uncaught := none, logged := none } ∧
    loadTradesPage (-1) uiState0 (Except.ok trades0) =
      { state := uiState0, fetchUrl := none, uncaught := none, logged := none } :=
  ⟨c8_loadTradesPage_rejects_small_pages 0 uiState0 (Except.ok trades0) (by norm_num),
   c8_loadTradesPage_rejects_small_pages (-1) uiState0 (Except.ok trades0) (by norm_num)⟩

/-- Claim C9: for every profit curve with a non-empty point sequence,
`renderProfitChart` builds an x axis label array, an equity array and a
baseline array of equal length, and every element of the baseline array
equals the initial equity of the curve (defaulted to 0 when absent). -/
theorem c9_chart_arrays (curve : ProfitCurve) (h : curve.data.getD [] ≠ []) :
    ∃ xs ys bs legend,
      renderProfitChart curve = (ChartContent.chart xs ys bs, some legend) ∧
      xs.length = (curve.data.getD []).length ∧
      ys.length = (curve.data.getD []).length ∧
      bs.length = (curve.data.getD []).length ∧
      (∀ v ∈ bs, v = jsOrNum curve.initial_equity 0) ∧
      (∀ v0, curve.initial_equity = some v0 → ∀ v ∈ bs, v = v0) := by
  have hlen : ¬ (curve.data.getD []).length = 0 := by
    simpa [List.length_eq_zero] using h
  have hspec := buildChartArrays_spec (jsOrNum curve.initial_equity 0)
    (curve.data.getD [])
  refine ⟨(buildChartArrays (jsOrNum curve.initial_equity 0) (curve.data.getD [])).1,
    (buildChartArrays (jsOrNum curve.initial_equity 0) (curve.data.getD [])).2.1,
    (buildChartArrays (jsOrNum curve.initial_equity 0) (curve.data.getD [])).2.2,
    "权益(USDT) | 基准 " ++ toFixed (jsOrNum curve.initial_equity 0) 2 ++ " USDT",
    ?_, hspec.1, hspec.2.1, hspec.2.2.1, hspec.2.2.2, ?_⟩
  · unfold renderProfitChart
    rw [if_neg hlen]
  · intro v0 hv0 v hv
    rw [hspec.2.2.2 v hv, hv0, jsOrNum_some_zero]

/-- Claim C9 witness: the concrete two-point curve yields three length-2
arrays with a constant 5000 baseline. -/
theorem c9_witness :
    ∃ xs ys bs legend,
      renderProfitChart profit0 = (ChartContent.chart xs ys bs, some legend) ∧
      xs.length = (profit0.data.getD []).length ∧
      ys.length = (profit0.data.getD []).length ∧
      bs.length = (profit0.data.getD []).length ∧
      (∀ v ∈ bs, v = jsOrNum profit0.initial_equity 0) ∧
      (∀ v0, profit0.initial_equity = some v0 → ∀ v ∈ bs, v = v0) :=
  c9_chart_arrays profit0 (by
    rw [show profit0.data.getD [] = [.tuple 1 10, .obj 2 20] from rfl]
    exact List.cons_ne_nil _ _)

/-- Claim C10: `selectDecision` with an index outside the bounds of the
loaded decision list does not fail: it stores the index, re-renders the
list with no item highlighted (no index passes the active test), leaves
the stored list untouched, and the detail pane shows the explicit
placeholder because the lookup yields no decision. -/
theorem c10_selectDecision_out_of_range (st : UIState) (i : Int)
    (h : i < 0 ∨ (st.currentDecisions.length : Int) ≤ i) :
    (selectDecision i st).selectedDecisionIndex = i ∧
    (selectDecision i st).currentDecisions = st.currentDecisions ∧
    (∀ j, j < st.currentDecisions.length → decisionItemActive i j = false) ∧
    (selectDecision i st).decisionDetailHtml = noSelectionHtml := by
  have hnone : jsIndex st.currentDecisions i = none := by
    unfold jsIndex
    rcases h with h | h
    · rw [if_neg (by omega)]
    · have hi : 0 ≤ i := le_trans (Int.ofNat_nonneg _) h
      rw [if_pos hi]
      refine List.get?_eq_none.mpr ?_
      omega
  refine ⟨rfl, ?_, ?_, ?_⟩
  · simp [selectDecision, hnone, renderDecisionDetail]
  · intro j hj
    unfold decisionItemActive
    rcases h with h | h <;>
      · simp only [decide_eq_false_iff_not]
        omega
  · simp [selectDecision, hnone, renderDecisionDetail]

/-- Claim C10 witness: selecting index 0 on the empty initial list stores
the index, highlights nothing, and shows the placeholder. -/
theorem c10_witness :
    (selectDecision 0 uiState0).selectedDecisionIndex = 0 ∧
    (selectDecision 0 uiState0).currentDecisions = uiState0.currentDecisions ∧
    (∀ j, j < uiState0.currentDecisions.length →
      decisionItemActive 0 j = false) ∧
    (selectDecision 0 uiState0).decisionDetailHtml = noSelectionHtml :=
  c10_selectDecision_out_of_range uiState0 0 (Or.inr (by decide))

/-! ### Helper lemmas: escaping in the detail markup -/

/-- Containment is transitive. -/
theorem strContains_trans {s t x : String} (hst : strContains s t = true)
    (htx : strContains t x = true) : strContains s x = true := by
  apply strContains_of_infix
  have h1 : t.data <:+: s.data := by simpa [strContains] using hst
  have h2 : x.data <:+: t.data := by simpa [strContains] using htx
  exact h2.trans h1

/-- The quantitative reason of a signal reaches its reason block only
through `escapeHtml`. -/
theorem reason_escaped_in_block (sig : Signal) (r : String)
    (h : sig.reason = some r) :
    strContains (reasonBlockHtml sig) (escapeHtml (some r)) = true := by
  by_cases hr : r = ""
  · subst hr
    rw [show escapeHtml (some "") = "" from rfl]
    exact strContains_empty _
  · simp only [reasonBlockHtml, h]
    rw [if_pos hr]
    apply strContains_appendL
    apply strContains_appendL
    apply strContains_appendL
    apply strContains_appendR
    apply strContains_appendL
    apply strContains_appendR
    exact strContains_refl _

/-- The AI review reason of a signal reaches its reason block only
through `escapeHtml` (the sentinel dash is suppressed entirely). -/
theorem aiReason_escaped_in_block (sig : Signal) (r : String)
    (h : sig.ai_reason = some r) (hd : r ≠ "-") :
    strContains (reasonBlockHtml sig) (escapeHtml (some r)) = true := by
  by_cases hr : r = ""
  · subst hr
    rw [show escapeHtml (some "") = "" from rfl]
    exact strContains_empty _
  · simp only [reasonBlockHtml, h]
    rw [if_pos ⟨hr, hd⟩]
    apply strContains_appendL
    apply strContains_appendL
    apply strContains_appendR
    apply strContains_appendL
    apply strContains_appendR
    exact strContains_refl _

/-- The invalidation condition strings are inserted into the reason block
joined by a comma, without passing through `escapeHtml`. -/
theorem invalidations_raw_in_block (sig : Signal) (invs : List String)
    (h : sig.invalidations = some invs) (hne : invs ≠ []) :
    strContains (reasonBlockHtml sig) (String.intercalate ", " invs) = true := by
  simp only [reasonBlockHtml, h]
  rw [if_pos (List.length_pos.mpr hne)]
  apply strContains_appendL
  apply strContains_appendR
  apply strContains_appendL
  apply strContains_appendR
  exact strContains_refl _

/-- A collapsible section built over a preformatted block contains the
block content. -/
theorem collapsibleSection_preBlock_contains (title x : String) :
    strContains (collapsibleSection title (preBlock x)) x = true := by
  unfold collapsibleSection preBlock
  apply strContains_appendL
  apply strContains_appendR
  apply strContains_appendL
  apply strContains_appendR
  exact strContains_refl _

/-- The shape of the detail markup. -/
theorem renderDecisionDetail_fst (d : Decision) :
    (renderDecisionDetail (some d)).1 =
      detailHeaderHtml d ++
      signalTableHtml (sortSignalsForDisplay (d.signals.getD [])) ++
      collapsibleSection "查看每个币种的 reason"
        (reasonPanelHtml (sortSignalsForDisplay (d.signals.getD []))) ++
      collapsibleSection "查看原始 decision 输出(Response.content)"
        (preBlock (escapeHtml (some (jsOrStrS (decisionContentRaw d) "无数据")))) ++
      collapsibleSection "投喂内容(Request)"
        (preBlock (escapeHtml (some (jsOrStrS (decisionRequestContent d) "无数据")))) ++
      collapsibleSection "原始输出(Response JSON)"
        (preBlock (escapeHtml (some (jsOrStrS (decisionResponseContent d) "无数据")))) := rfl

/-- The three raw payload dumps reach the detail markup only through
`escapeHtml`. -/
theorem detail_sections_escaped (d : Decision) :
    strContains ((renderDecisionDetail (some d)).1)
      (escapeHtml (some (jsOrStrS (decisionContentRaw d) "无数据"))) = true ∧
    strContains ((renderDecisionDetail (some d)).1)
      (escapeHtml (some (jsOrStrS (decisionRequestContent d) "无数据"))) = true ∧
    strContains ((renderDecisionDetail (some d)).1)
      (escapeHtml (some (jsOrStrS (decisionResponseContent d) "无数据"))) = true := by
  rw [renderDecisionDetail_fst]
  refine ⟨?_, ?_, ?_⟩
  · apply strContains_appendL
    apply strContains_appendL
    apply strContains_appendR
    exact collapsibleSection_preBlock_contains _ _
  · apply strContains_appendL
    apply strContains_appendR
    exact collapsibleSection_preBlock_contains _ _
  · apply strContains_appendR
    exact collapsibleSection_preBlock_contains _ _

/-- Claim C3 counterexample: a hostile invalidation condition string
reaches the rendered detail markup verbatim — unescaped — while the
escaping function would have removed the raw angle brackets.  Free text is
therefore not always passed through the escaping function. -/
theorem c3_counterexample :
    strContains ((renderDecisionDetail (some decInv0)).1)
      "<script>alert(1)</script>" = true ∧
    strContains (escapeHtml (some "<script>alert(1)</script>")) "<script>" =
      false := by
  constructor
  · have hblock : strContains (reasonBlockHtml sigInv0)
        "<script>alert(1)</script>" = true := by
      have h := invalidations_raw_in_block sigInv0 ["<script>alert(1)</script>"]
        rfl (List.cons_ne_nil _ _)
      rwa [show String.intercalate ", " ["<script>alert(1)</script>"] =
        "<script>alert(1)</script>" from rfl] at h
    have hpanel : strContains
        (reasonPanelHtml (sortSignalsForDisplay (decInv0.signals.getD [])))
        (reasonBlockHtml sigInv0) = true := by
      rw [show sortSignalsForDisplay (decInv0.signals.getD []) = [sigInv0] from rfl]
      unfold reasonPanelHtml
      rw [if_neg (by decide)]
      rw [show reasonListHtml [sigInv0] = "" ++ reasonBlockHtml sigInv0 from rfl]
      apply strContains_appendR
      exact strContains_refl _
    refine strContains_trans (strContains_trans ?_ hpanel) hblock
    rw [renderDecisionDetail_fst]
    apply strContains_appendL
    apply strContains_appendL
    apply strContains_appendL
    apply strContains_appendR
    unfold collapsibleSection
    apply strContains_appendL
    apply strContains_appendR
    exact strContains_refl _
  · decide

/-- Claim C3, amended: the quantitative reasons, the AI review reasons and
the three raw request/response dumps are passed through the escaping
function before insertion into the rendered markup, but the invalidation
condition strings are inserted verbatim (joined by a comma) without
escaping. -/
theorem c3_amended_escaping :
    (∀ (sig : Signal) (r : String), sig.reason = some r →
      strContains (reasonBlockHtml sig) (escapeHtml (some r)) = true) ∧
    (∀ (sig : Signal) (r : String), sig.ai_reason = some r → r ≠ "-" →
      strContains (reasonBlockHtml sig) (escapeHtml (some r)) = true) ∧
    (∀ (sig : Signal) (invs : List String), sig.invalidations = some invs →
      invs ≠ [] →
      strContains (reasonBlockHtml sig) (String.intercalate ", " invs) = true) ∧
    (∀ d : Decision,
      strContains ((renderDecisionDetail (some d)).1)
        (escapeHtml (some (jsOrStrS (decisionContentRaw d) "无数据"))) = true ∧
      strContains ((renderDecisionDetail (some d)).1)
        (escapeHtml (some (jsOrStrS (decisionRequestContent d) "无数据"))) = true ∧
      strContains ((renderDecisionDetail (some d)).1)
        (escapeHtml (some (jsOrStrS (decisionResponseContent d) "无数据"))) = true) :=
  ⟨reason_escaped_in_block, aiReason_escaped_in_block,
   invalidations_raw_in_block, detail_sections_escaped⟩

/-- Claim C3 witness: at the concrete hostile signal, the escaped reason
is contained in its block and the joined raw invalidation text is
contained in its block. -/
theorem c3_witness :
    strContains (reasonBlockHtml sigInv0)
      (escapeHtml (some "breakout & retest")) = true ∧
    strContains (reasonBlockHtml sigInv0)
      (String.intercalate ", " ["<script>alert(1)</script>"]) = true :=
  ⟨c3_amended_escaping.1 sigInv0 "breakout & retest" rfl,
   c3_amended_escaping.2.2.1 sigInv0 ["<script>alert(1)</script>"] rfl
     (List.cons_ne_nil _ _)⟩

end History
